import Mathlib

set_option linter.unusedVariables false

/-!
Shallow embedding of the salesforce-automation repository
(`src/new_fields.py`, `src/new_accounts.py`) together with proofs of the
frozen claims about it.

The CRM tenant is modelled explicitly: the metadata plane as an `Org`
carrying the set of custom fields that exist on the Account object, a flag
for whether the `describe` call raises, and an oracle giving the Metadata
API response to each create attempt; the data plane as a `DataOrg` carrying
the queryable Account schema, the stored Account records, and an oracle for
entity-create failures.  Python dicts with string keys become association
lists or structures with `Option` components; a raised exception becomes an
`Except.error`; `time.sleep` pacing has no observable effect on the data
and is dropped.
-/

/-! ## Metadata plane model (`src/new_fields.py`) -/

/-- Response of the Metadata API (`metadata_api.create_metadata`) to one
create attempt: `result[0]['success']` truthy, a structured failure whose
extracted message is `msg`, or a raised exception with message `msg`. -/
inductive CreateOutcome where
  | success : CreateOutcome
  | failure : String → CreateOutcome
  | exn : String → CreateOutcome
deriving DecidableEq

/-- State of the CRM org as seen by the metadata plane: `existing` is the
list of field API names that `describe` reports on the Account object,
`describeFails` says whether the `describe()` call raises, and
`createOutcome` is the oracle giving the Metadata API response when a
create of the named field is submitted. -/
structure Org where
  existing : List String
  describeFails : Bool
  createOutcome : String → CreateOutcome

/-- Result dictionary returned by the `create_*_field` methods, with one
optional component per key that may be present
(`success` / `message` / `field` / `error`). -/
structure PyResult where
  success : Bool
  message : Option String
  field : Option String
  error : Option String
deriving DecidableEq

/-- Embeds `SalesforceFieldManager.check_field_exists`: describe the object
and test membership of `field_name` among the reported field names; if the
describe call raises, print a warning and return `False`. -/
def check_field_exists (org : Org) (object_name field_name : String) : Bool :=
  if org.describeFails then false
  else org.existing.contains field_name

/-- Shared tail of every `create_*_field` method after the existence check:
submit the descriptor to the metadata plane and translate the response into
the result dictionary the source builds (`{'success': True, 'field': f}` on
success, `{'success': False, 'field': f, 'error': msg}` on a structured
failure or a caught exception).  A successful create makes the field exist
on the remote org, so `existing` grows by `field_name`. -/
def submit_field (org : Org) (field_name : String) : PyResult × Org :=
  match org.createOutcome field_name with
  | CreateOutcome.success =>
      (⟨true, none, some field_name, none⟩,
       { org with existing := field_name :: org.existing })
  | CreateOutcome.failure msg =>
      (⟨false, none, some field_name, some msg⟩, org)
  | CreateOutcome.exn msg =>
      (⟨false, none, some field_name, some msg⟩, org)

/-- Result dictionary `{'success': False, 'message': 'Field already exists'}`
returned by every `create_*_field` method when the existence check hits. -/
def field_exists_result : PyResult :=
  ⟨false, some "Field already exists", none, none⟩

/-- Embeds `create_text_field`: skip when the field already exists,
otherwise submit the text descriptor.  The descriptor parameters
(`length`, `required`, `unique`, `external_id`, `description`) shape the
submitted metadata payload, which the model abstracts into the
`createOutcome` oracle. -/
def create_text_field (org : Org) (object_name field_name label : String)
    (length : Nat) (required unique external_id : Bool)
    (description : Option String) : PyResult × Org :=
  if check_field_exists org object_name field_name then
    (field_exists_result, org)
  else
    submit_field org field_name

/-- Embeds `create_number_field`: skip when the field already exists,
otherwise submit the number descriptor. -/
def create_number_field (org : Org) (object_name field_name label : String)
    (precision scale : Nat) (required : Bool)
    (description : Option String) : PyResult × Org :=
  if check_field_exists org object_name field_name then
    (field_exists_result, org)
  else
    submit_field org field_name

/-- Embeds `create_checkbox_field`: skip when the field already exists,
otherwise submit the checkbox descriptor. -/
def create_checkbox_field (org : Org) (object_name field_name label : String)
    (default_value required : Bool)
    (description : Option String) : PyResult × Org :=
  if check_field_exists org object_name field_name then
    (field_exists_result, org)
  else
    submit_field org field_name

/-- Embeds `create_date_field`: skip when the field already exists,
otherwise submit the date descriptor. -/
def create_date_field (org : Org) (object_name field_name label : String)
    (required : Bool) (description : Option String) : PyResult × Org :=
  if check_field_exists org object_name field_name then
    (field_exists_result, org)
  else
    submit_field org field_name

/-- Embeds `create_picklist_field`: skip when the field already exists,
otherwise submit the picklist descriptor. -/
def create_picklist_field (org : Org) (object_name field_name label : String)
    (picklist_values : List String) (required : Bool)
    (description : Option String) : PyResult × Org :=
  if check_field_exists org object_name field_name then
    (field_exists_result, org)
  else
    submit_field org field_name

/-- Embeds `create_currency_field`: skip when the field already exists,
otherwise submit the currency descriptor. -/
def create_currency_field (org : Org) (object_name field_name label : String)
    (precision scale : Nat) (required : Bool)
    (description : Option String) : PyResult × Org :=
  if check_field_exists org object_name field_name then
    (field_exists_result, org)
  else
    submit_field org field_name

/-- Keyword-argument dictionary of one entry of `fields_to_create`; keys a
given entry does not pass are `none` and the callee's Python default
applies (`length=255`, `precision=18`, `scale=10`, `unique=False`,
`external_id=False`, `default_value=False`, `required=False`). -/
structure FieldConfig where
  object_name : String
  field_name : String
  label : String
  length : Option Nat
  precision : Option Nat
  scale : Option Nat
  unique : Option Bool
  external_id : Option Bool
  default_value : Option Bool
  picklist_values : Option (List String)
  description : Option String
deriving DecidableEq

/-- Builds a `FieldConfig` with every optional keyword absent. -/
def baseConfig (object_name field_name label : String) : FieldConfig :=
  ⟨object_name, field_name, label, none, none, none, none, none, none, none, none⟩

/-- Embeds the `fields_to_create` list literal of `create_healthcare_fields`:
the 22 healthcare custom fields, each tagged with its field-type string. -/
def fields_to_create : List (String × FieldConfig) :=
  [ ("text",
      { baseConfig "Account" "CCN__c" "CMS Certification Number" with
        length := some 50, unique := some true, external_id := some true,
        description := some "CMS Certification Number (CCN) - unique identifier" }),
    ("text",
      { baseConfig "Account" "Legal_Business_Name__c" "Legal Business Name" with
        length := some 255,
        description := some "Legal business name of the facility" }),
    ("text",
      { baseConfig "Account" "SSA_County_Code__c" "SSA County Code" with
        length := some 10,
        description := some "Provider SSA County Code" }),
    ("text",
      { baseConfig "Account" "County__c" "County" with
        length := some 100,
        description := some "County or Parish" }),
    ("text",
      { baseConfig "Account" "Chain_Name__c" "Chain Name" with
        length := some 255,
        description := some "Name of the healthcare chain" }),
    ("text",
      { baseConfig "Account" "Chain_ID__c" "Chain ID" with
        length := some 50,
        description := some "Chain identification number" }),
    ("text",
      { baseConfig "Account" "Special_Focus_Status__c" "Special Focus Status" with
        length := some 50,
        description := some "Special Focus Facility status" }),
    ("number",
      { baseConfig "Account" "Certified_Beds__c" "Number of Certified Beds" with
        precision := some 10, scale := some 0,
        description := some "Number of certified beds in the facility" }),
    ("number",
      { baseConfig "Account" "Avg_Residents_Per_Day__c" "Average Residents Per Day" with
        precision := some 10, scale := some 2,
        description := some "Average number of residents per day" }),
    ("number",
      { baseConfig "Account" "Facilities_In_Chain__c" "Facilities in Chain" with
        precision := some 10, scale := some 0,
        description := some "Number of facilities in the chain" }),
    ("number",
      { baseConfig "Account" "Overall_Rating__c" "Overall Rating" with
        precision := some 3, scale := some 1,
        description := some "Overall 5-star rating (0-5)" }),
    ("number",
      { baseConfig "Account" "Health_Inspection_Rating__c" "Health Inspection Rating" with
        precision := some 3, scale := some 1,
        description := some "Health inspection rating (0-5)" }),
    ("number",
      { baseConfig "Account" "QM_Rating__c" "QM Rating" with
        precision := some 3, scale := some 1,
        description := some "Quality Measures rating (0-5)" }),
    ("number",
      { baseConfig "Account" "Staffing_Rating__c" "Staffing Rating" with
        precision := some 3, scale := some 1,
        description := some "Staffing rating (0-5)" }),
    ("number",
      { baseConfig "Account" "Latitude__c" "Latitude" with
        precision := some 10, scale := some 7,
        description := some "Latitude coordinate" }),
    ("number",
      { baseConfig "Account" "Longitude__c" "Longitude" with
        precision := some 10, scale := some 7,
        description := some "Longitude coordinate" }),
    ("checkbox",
      { baseConfig "Account" "Ownership_Changed_12Mo__c" "Ownership Changed (12 Months)" with
        default_value := some false,
        description := some "Provider changed ownership in last 12 months" }),
    ("checkbox",
      { baseConfig "Account" "Resides_In_Hospital__c" "Resides in Hospital" with
        default_value := some false,
        description := some "Provider resides in hospital" }),
    ("checkbox",
      { baseConfig "Account" "CCRC__c" "Continuing Care Retirement Community" with
        default_value := some false,
        description := some "Is a Continuing Care Retirement Community" }),
    ("checkbox",
      { baseConfig "Account" "Has_Resident_Family_Council__c" "Has Resident Family Council" with
        default_value := some false,
        description := some "With a Resident and Family Council" }),
    ("checkbox",
      { baseConfig "Account" "Has_Sprinkler_Systems__c" "Has Sprinkler Systems" with
        default_value := some false,
        description := some "Automatic sprinkler systems in all required areas" }),
    ("date",
      { baseConfig "Account" "Medicare_Medicaid_Approval_Date__c" "Medicare/Medicaid Approval Date" with
        description := some "Date first approved to provide Medicare and Medicaid services" }) ]

/-- Embeds the type dispatch of the loop body of `create_healthcare_fields`:
call the creator matching the field-type string, or return
`{'success': False, 'error': 'Unknown field type'}` for an unrecognised
type.  Keyword defaults of the callees are applied to absent config keys. -/
def dispatch_create (org : Org) (field_type : String) (cfg : FieldConfig) :
    PyResult × Org :=
  if field_type == "text" then
    create_text_field org cfg.object_name cfg.field_name cfg.label
      (cfg.length.getD 255) false (cfg.unique.getD false)
      (cfg.external_id.getD false) cfg.description
  else if field_type == "number" then
    create_number_field org cfg.object_name cfg.field_name cfg.label
      (cfg.precision.getD 18) (cfg.scale.getD 10) false cfg.description
  else if field_type == "checkbox" then
    create_checkbox_field org cfg.object_name cfg.field_name cfg.label
      (cfg.default_value.getD false) false cfg.description
  else if field_type == "date" then
    create_date_field org cfg.object_name cfg.field_name cfg.label
      false cfg.description
  else if field_type == "picklist" then
    create_picklist_field org cfg.object_name cfg.field_name cfg.label
      (cfg.picklist_values.getD []) false cfg.description
  else if field_type == "currency" then
    create_currency_field org cfg.object_name cfg.field_name cfg.label
      (cfg.precision.getD 18) (cfg.scale.getD 10) false cfg.description
  else
    (⟨false, none, none, some "Unknown field type"⟩, org)

/-- Run summary dictionary of `create_healthcare_fields`:
`{'created': [...], 'failed': [{'field':…, 'error':…}], 'skipped': [...]}`. -/
structure RunResults where
  created : List String
  failed : List (String × String)
  skipped : List String
deriving DecidableEq

/-- Embeds the outcome-tracking tail of the loop body of
`create_healthcare_fields`: append the field name to `created` when the
result says success, to `skipped` when its message is
`'Field already exists'`, otherwise to `failed` with
`result.get('error', 'Unknown error')`. -/
def track (acc : RunResults) (field_name : String) (r : PyResult) : RunResults :=
  if r.success then
    { acc with created := acc.created ++ [field_name] }
  else if r.message == some "Field already exists" then
    { acc with skipped := acc.skipped ++ [field_name] }
  else
    { acc with failed := acc.failed ++ [(field_name, r.error.getD "Unknown error")] }

/-- Embeds the `for` loop of `create_healthcare_fields` over a field list,
threading the org state and the accumulated summary; the pacing
`time.sleep(delay)` between creations has no effect on either and is
dropped. -/
def run_fields (org : Org) (fields : List (String × FieldConfig))
    (acc : RunResults) : RunResults × Org :=
  match fields with
  | [] => (acc, org)
  | (ft, cfg) :: rest =>
      let step := dispatch_create org ft cfg
      run_fields step.2 rest (track acc cfg.field_name step.1)

/-- Embeds `create_healthcare_fields`: run the loop over the literal
`fields_to_create` list starting from the empty summary. -/
def create_healthcare_fields (org : Org) : RunResults × Org :=
  run_fields org fields_to_create ⟨[], [], []⟩

/-- Field API names of the `fields_to_create` entries, in declaration
order. -/
def healthcare_field_names : List String :=
  fields_to_create.map (fun e => e.2.field_name)

/-! ## Data plane model (`src/new_accounts.py`) -/

/-- State of the CRM org as seen by the data plane: `schema` is the list of
queryable field API names on the Account entity, `accounts` the stored
records as pairs of record Id and field dictionary, `createFails` an oracle
giving the error message when `sf.Account.create` raises (`none` meaning
creation succeeds), and `nextId` a counter from which fresh record Ids are
minted. -/
structure DataOrg where
  schema : List String
  accounts : List (String × List (String × String))
  createFails : Option String
  nextId : Nat
deriving DecidableEq

/-- Components of the SOQL string
`SELECT <selectField> FROM <entity> WHERE <whereField> = '<whereValue>' LIMIT <limit>`
submitted through `sf.query`. -/
structure SoqlQuery where
  entity : String
  selectField : String
  whereField : String
  whereValue : String
  limit : Nat
deriving DecidableEq

/-- Embeds the query f-string built by `add_account`
(`SELECT Id FROM Account WHERE CCN_c = '{account_ccn}' LIMIT 1`), parsed
into its components. -/
def add_account_query (account_ccn : String) : SoqlQuery :=
  ⟨"Account", "Id", "CCN_c", account_ccn, 1⟩

/-- Embeds the CRM side of `sf.query` for the shape of query the upserter
issues: querying a field that is not on the entity's schema raises
(`SalesforceMalformedRequest`, INVALID_FIELD — mirroring the hosted CRM's
behaviour for an unknown column); otherwise it returns the Ids of the
records whose stored value for the field equals the queried value, limited
to `limit` rows. -/
def run_query (org : DataOrg) (q : SoqlQuery) : Except String (List String) :=
  if org.schema.contains q.whereField then
    Except.ok
      (((org.accounts.filter
          (fun a => a.2.lookup q.whereField == some q.whereValue)).map
            Prod.fst).take q.limit)
  else
    Except.error ("INVALID_FIELD: No such column " ++ q.whereField ++
      " on entity " ++ q.entity)

/-- Result dictionary returned by `add_account`, with one optional
component per key that may be present
(`success` / `message` / `id` / `created` / `error`). -/
structure AddDict where
  success : Bool
  message : Option String
  id : Option String
  created : Option Bool
  error : Option String
deriving DecidableEq

deriving instance DecidableEq for Except

/-- Mints the CRM record Id for the `nextId`-th created Account. -/
def newAccountId (n : Nat) : String := "001" ++ toString n

/-- Embeds `add_account`.  Reading `account_data['Name']` and
`account_data['CCN__c']` happens before the `try` block, so a missing key
raises a `KeyError` that propagates to the caller (`Except.error`).  Inside
the `try`: run the duplicate query; a raised query error is caught and
returned as `{'success': False, 'error': e}`; a hit returns the Duplicate
dictionary carrying the existing Id without mutating the org; otherwise
`sf.Account.create(account_data)` stores the record (or its failure is
caught as the error dictionary). -/
def add_account (org : DataOrg) (account_data : List (String × String)) :
    Except String (AddDict × DataOrg) :=
  match account_data.lookup "Name" with
  | none => Except.error "KeyError: Name"
  | some account_name =>
    match account_data.lookup "CCN__c" with
    | none => Except.error "KeyError: CCN__c"
    | some account_ccn =>
      match run_query org (add_account_query account_ccn) with
      | Except.error e => Except.ok (⟨false, none, none, none, some e⟩, org)
      | Except.ok (existing_id :: _) =>
          Except.ok (⟨false, some "Duplicate", some existing_id, none, none⟩, org)
      | Except.ok [] =>
          match org.createFails with
          | some e => Except.ok (⟨false, none, none, none, some e⟩, org)
          | none =>
              Except.ok
                (⟨true, none, some (newAccountId org.nextId), some true, none⟩,
                 { org with
                     accounts := org.accounts ++ [(newAccountId org.nextId, account_data)],
                     nextId := org.nextId + 1 })

/-- Per-row entry appended to `results` by `add_accounts_from_dataframe`. -/
structure RowResult where
  success : Bool
  id : Option String
  error : Option String
  name : String
deriving DecidableEq

/-- Embeds `add_accounts_from_dataframe`.  The loop body builds
`account_data = {}` (the mapping block is empty in the source), calls
`add_account`, then appends `{'success': True, 'id': result['id'],
'name': account_data.get('Name', 'Unknown')}`.  Any exception in the body —
the `KeyError` raised by `add_account` on the missing `'Name'` key, or the
`KeyError` from `result['id']` when `add_account` returned a dictionary
without an `'id'` key — is caught and recorded as
`{'success': False, 'error': …, 'name': row.get('Provider Name', 'Unknown')}`.
The `time.sleep(0.1)` pacing is dropped. -/
def add_accounts_from_dataframe (org : DataOrg)
    (df : List (List (String × String))) : List RowResult × DataOrg :=
  match df with
  | [] => ([], org)
  | row :: rest =>
      let account_data : List (String × String) := []
      match add_account org account_data with
      | Except.error e =>
          let r : RowResult := ⟨false, none, some e, (row.lookup "Provider Name").getD "Unknown"⟩
          let tail := add_accounts_from_dataframe org rest
          (r :: tail.1, tail.2)
      | Except.ok (d, org1) =>
          match d.id with
          | some i =>
              let r : RowResult :=
                ⟨true, some i, none, (account_data.lookup "Name").getD "Unknown"⟩
              let tail := add_accounts_from_dataframe org1 rest
              (r :: tail.1, tail.2)
          | none =>
              let r : RowResult :=
                ⟨false, none, some "KeyError: id", (row.lookup "Provider Name").getD "Unknown"⟩
              let tail := add_accounts_from_dataframe org1 rest
              (r :: tail.1, tail.2)

/-! ## Loader and projector (`main` of `src/new_accounts.py`) -/

/-- Embeds the `mapped_columns` dictionary literal of `main`: the fixed map
from reserved upstream columns to built-in Account fields. -/
def initial_mapped_columns : List (String × String) :=
  [("Provider Name", "Name"),
   ("Provider Address", "BillingStreet"),
   ("City/Town", "BillingCity"),
   ("State", "BillingState"),
   ("ZIP Code", "BillingPostalCode"),
   ("Telephone Number", "Phone"),
   ("Provider Type", "Type"),
   ("Ownership Type", "Industry")]

/-- Assignment `m[k] = v` on a Python dictionary modelled as a key-unique
association list: overwrite in place when the key is present, append
otherwise. -/
def dict_set (m : List (String × String)) (k v : String) :
    List (String × String) :=
  if m.any (fun p => p.1 == k) then
    m.map (fun p => if p.1 == k then (k, v) else p)
  else
    m ++ [(k, v)]

/-- API name the loader's loop assigns to a dataframe column: `CCN__c` for
the CCN column, `f'{column}__c'` for every other column. -/
def loader_api_name (column : String) : String :=
  if column == "CMS Certification Number (CCN)" then "CCN__c"
  else column ++ "__c"

/-- Embeds lines 126–141 of `main`: start from the reserved map, then for
every dataframe column assign `mapped_columns[column] = loader_api_name
column`, overwriting any earlier entry for that key. -/
def mapped_columns (df_columns : List String) : List (String × String) :=
  df_columns.foldl
    (fun m column => dict_set m column (loader_api_name column))
    initial_mapped_columns

/-- Jurisdiction set of the loader (`['AZ', 'NV', 'UT', 'CO']`). -/
def jurisdiction_states : List String := ["AZ", "NV", "UT", "CO"]

/-- Embeds `df[df['State'].isin(['AZ', 'NV', 'UT', 'CO'])]`: keep the rows
whose `State` value is in the jurisdiction set. -/
def filter_states (rows : List (List (String × String))) :
    List (List (String × String)) :=
  rows.filter (fun row => jurisdiction_states.contains ((row.lookup "State").getD ""))

/-- Renaming of one row under `df.rename(columns=m)`: each cell keeps its
value and its column key is looked up in the rename map (an absent key is
left unchanged, as pandas does). -/
def rename_row (m : List (String × String)) (row : List (String × String)) :
    List (String × String) :=
  row.map (fun kv => ((m.lookup kv.1).getD kv.1, kv.2))

/-- Tabular CSV data: the header columns and the rows, each row a mapping
from column name to cell value. -/
structure DataFrame where
  columns : List String
  rows : List (List (String × String))

/-- Embeds lines 124–144 of `main` after the CSV fetch: filter rows by the
jurisdiction set, build the rename map from the dataframe's columns, rename
every row, and pass the first two rows (`df[:2]`) to
`add_accounts_from_dataframe`. -/
def load_pipeline (org : DataOrg) (df : DataFrame) : List RowResult × DataOrg :=
  let filtered := filter_states df.rows
  let m := mapped_columns df.columns
  add_accounts_from_dataframe org ((filtered.map (rename_row m)).take 2)

/-- Character class `[A-Za-z0-9_]` of a CRM-legal API-name base. -/
def legal_api_char (c : Char) : Bool :=
  c.isAlpha || c.isDigit || c == '_'

/-- Decides the regular expression `^[A-Za-z0-9_]{1,40}__c$` of the spec's
normalizer invariant, over the string's character list: the string ends in
`__c` and the base before the suffix has 1 to 40 characters, all drawn from
`[A-Za-z0-9_]`. -/
def is_crm_api_name (s : String) : Bool :=
  let cs := s.toList
  decide (4 ≤ cs.length) &&
  (cs.drop (cs.length - 3) == ['_', '_', 'c']) &&
  decide (cs.length - 3 ≤ 40) &&
  (cs.take (cs.length - 3)).all legal_api_char

/-- Subset of the header columns of the upstream CMS provider CSV
(`NH_ProviderInfo_Sep2025.csv`) that the spec names: the reserved key
columns, the two designated override columns, and one representative
domain-attribute column. -/
def sample_csv_columns : List String :=
  ["Provider Name", "Provider Address", "City/Town", "State", "ZIP Code",
   "Telephone Number", "Provider Type", "Ownership Type",
   "CMS Certification Number (CCN)", "County/Parish",
   "Number of Certified Beds"]

/-! ## Concrete instances used by the theorems -/

/-- Field-type strings that the dispatch of `create_healthcare_fields`
recognises; any other string falls through to the
`{'success': False, 'error': 'Unknown field type'}` branch. -/
def is_known_type (ft : String) : Bool :=
  ft == "text" || ft == "number" || ft == "checkbox" || ft == "date" ||
  ft == "picklist" || ft == "currency"

/-- Metadata-plane org on which no custom field exists yet, describe works,
and every create attempt succeeds. -/
def all_success_org : Org :=
  ⟨[], false, fun _ => CreateOutcome.success⟩

/-- Metadata-plane org whose `describe()` call raises even though `CCN__c`
exists on it, and on which every create attempt succeeds. -/
def describe_error_org : Org :=
  ⟨["CCN__c"], true, fun _ => CreateOutcome.success⟩

/-- Queryable field API names of the Account entity after provisioning:
the built-in fields that the loader's reserved map targets plus the custom
fields `create_healthcare_fields` creates.  It contains `CCN__c` and no
field named `CCN_c`. -/
def provisioned_account_schema : List String :=
  ["Id", "Name", "BillingStreet", "BillingCity", "BillingState",
   "BillingPostalCode", "Phone", "Type", "Industry"] ++
  healthcare_field_names

/-- Account payload of the spec's concrete upsert scenario
(`{Name: "Burns Nursing Home", CCN__c: "015009"}`). -/
def sample_account_data : List (String × String) :=
  [("Name", "Burns Nursing Home"), ("CCN__c", "015009")]

/-- Data-plane org already holding an Account whose `CCN__c` is `015009`
(record Id `001A`), with entity creation succeeding. -/
def duplicate_org : DataOrg :=
  ⟨provisioned_account_schema, [("001A", sample_account_data)], none, 7⟩

/-- Data-plane org holding no Accounts, with entity creation succeeding. -/
def empty_org : DataOrg :=
  ⟨provisioned_account_schema, [], none, 0⟩

/-- CSV row of a facility outside the jurisdiction set
(the spec's scenario `{State: "AL", ...}`). -/
def sample_out_row : List (String × String) :=
  [("State", "AL"), ("Provider Name", "Alabama Nursing Home")]

/-- CSV row of a facility inside the jurisdiction set. -/
def sample_in_row : List (String × String) :=
  [("State", "AZ"), ("Provider Name", "Burns Nursing Home")]

/-- Two-row dataframe with one out-of-jurisdiction and one in-jurisdiction
facility. -/
def sample_df : DataFrame :=
  ⟨sample_csv_columns, [sample_out_row, sample_in_row]⟩

/-! ## Claim theorems and supporting lemmas -/

/-- C1 (refuted as stated): the loader's column-renaming step does not map
the reserved upstream columns to the built-in Account field names.  The
fixed reserved map does carry `Provider Name → Name`, but the loop over the
dataframe columns overwrites every reserved entry whose column occurs in
the CSV header, so `Provider Name` is renamed to `Provider Name__c`,
`ZIP Code` to `ZIP Code__c` and `Telephone Number` to `Telephone Number__c`
instead of `Name`, `BillingPostalCode` and `Phone`. -/
theorem reserved_columns_overwritten_in_rename :
    initial_mapped_columns.lookup "Provider Name" = some "Name" ∧
    (mapped_columns sample_csv_columns).lookup "Provider Name"
      = some "Provider Name__c" ∧
    (mapped_columns sample_csv_columns).lookup "ZIP Code"
      = some "ZIP Code__c" ∧
    (mapped_columns sample_csv_columns).lookup "Telephone Number"
      = some "Telephone Number__c" ∧
    (mapped_columns sample_csv_columns).lookup "Provider Name"
      ≠ some "Name" := by decide

/-- C2 (refuted as stated): the loader derives the API name of a
non-reserved upstream column as the raw column text with `__c` appended;
for the column `Number of Certified Beds` the derived name keeps its spaces
and violates the regular expression `^[A-Za-z0-9_]{1,40}__c$`, as does the
name derived for `County/Parish`. -/
theorem derived_api_name_not_crm_legal :
    loader_api_name "Number of Certified Beds"
      = "Number of Certified Beds__c" ∧
    (mapped_columns sample_csv_columns).lookup "Number of Certified Beds"
      = some "Number of Certified Beds__c" ∧
    is_crm_api_name "Number of Certified Beds__c" = false ∧
    is_crm_api_name (loader_api_name "County/Parish") = false := by decide

/-- C3 (refuted as stated): the duplicate-check query of `add_account`
filters on the field `CCN_c` (single underscore), not on the business-key
field `CCN__c`; on an org that carries the provisioned schema and an
Account whose `CCN__c` equals the payload's certification number, the query
raises INVALID_FIELD, the exception is caught, and `add_account` returns
the error dictionary instead of the duplicate outcome with the existing
record's Id. -/
theorem upsert_query_uses_wrong_field :
    (add_account_query "015009").whereField = "CCN_c" ∧
    ("CCN_c" : String) ≠ "CCN__c" ∧
    provisioned_account_schema.contains "CCN_c" = false ∧
    add_account duplicate_org sample_account_data
      = Except.ok (⟨false, none, none, none,
          some "INVALID_FIELD: No such column CCN_c on entity Account"⟩,
        duplicate_org) := by decide

/-- C8 (refuted as stated): running `add_accounts_from_dataframe` twice
over the same row yields an error outcome — the `KeyError` on `'Name'`
raised from the empty per-row payload — on both runs, never a duplicate
outcome, and neither run creates an Account (the org is unchanged). -/
theorem second_load_run_produces_no_duplicates :
    (add_accounts_from_dataframe empty_org [sample_account_data]).1
      = [⟨false, none, some "KeyError: Name", "Unknown"⟩] ∧
    (add_accounts_from_dataframe
        (add_accounts_from_dataframe empty_org [sample_account_data]).2
        [sample_account_data]).1
      = [⟨false, none, some "KeyError: Name", "Unknown"⟩] ∧
    (add_accounts_from_dataframe
        (add_accounts_from_dataframe empty_org [sample_account_data]).2
        [sample_account_data]).2 = empty_org := by decide

/-- C9 (refuted as stated): the provisioner does give `CCN__c` the
descriptor `{length: 50, unique: true, external_id: true}` and does
provision `County__c`, and the loader does map
`CMS Certification Number (CCN)` to `CCN__c`; but the loader renames the
column `County/Parish` to `County/Parish__c`, not to `County__c`. -/
theorem county_override_missing_in_loader :
    ((fields_to_create.filter (fun e => e.2.field_name == "CCN__c")).map
        (fun e => (e.1, e.2.length, e.2.unique, e.2.external_id)))
      = [("text", some 50, some true, some true)] ∧
    healthcare_field_names.contains "County__c" = true ∧
    (mapped_columns sample_csv_columns).lookup "CMS Certification Number (CCN)"
      = some "CCN__c" ∧
    (mapped_columns sample_csv_columns).lookup "County/Parish"
      = some "County/Parish__c" ∧
    ("County/Parish__c" : String) ≠ "County__c" := by decide

/-- C10: a row whose `State` value lies outside the jurisdiction set is
removed by the loader's filter step, and every row that survives the filter
— the only rows that reach renaming, projection and the upserter — has a
`State` value inside the set. -/
theorem out_of_jurisdiction_rows_filtered
    (rows : List (List (String × String))) (row : List (String × String))
    (h : jurisdiction_states.contains ((row.lookup "State").getD "") = false) :
    row ∉ filter_states rows ∧
    ∀ r ∈ filter_states rows,
      jurisdiction_states.contains ((r.lookup "State").getD "") = true := by
  unfold filter_states
  constructor
  · intro hmem
    have hp := List.of_mem_filter hmem
    simp only [] at hp
    rw [h] at hp
    exact Bool.false_ne_true hp
  · intro r hr
    have hp := List.of_mem_filter hr
    simpa using hp

/-- Witness for C10 at the spec's concrete scenario: the row
`{State: "AL"}` is outside the jurisdiction set and is dropped by the
filter over the two-row sample dataframe. -/
theorem out_of_jurisdiction_rows_filtered_witness :
    jurisdiction_states.contains ((sample_out_row.lookup "State").getD "") = false ∧
    (sample_out_row ∉ filter_states sample_df.rows ∧
     ∀ r ∈ filter_states sample_df.rows,
       jurisdiction_states.contains ((r.lookup "State").getD "") = true) :=
  ⟨by decide,
   out_of_jurisdiction_rows_filtered sample_df.rows sample_out_row (by decide)⟩

/-- Reading the payload of one row: `add_account` on the empty per-row
dictionary raises the `KeyError` on `'Name'` before its `try` block. -/
theorem add_account_empty_payload (org : DataOrg) :
    add_account org [] = Except.error "KeyError: Name" := rfl

/-- C4: `add_accounts_from_dataframe` builds the empty mapping as every
per-row payload, so `add_account` raises the `KeyError` on the missing
`'Name'` key for every row, each row is recorded as an error outcome (no
success, no Id), and the CRM org is left unchanged — no Account is ever
created and no dataframe value reaches the CRM. -/
theorem dataframe_import_always_errors (org : DataOrg)
    (df : List (List (String × String))) :
    (add_accounts_from_dataframe org df).2 = org ∧
    (add_accounts_from_dataframe org df).1.length = df.length ∧
    ∀ r ∈ (add_accounts_from_dataframe org df).1,
      r.success = false ∧ r.id = none ∧ r.error = some "KeyError: Name" := by
  induction df with
  | nil => simp [add_accounts_from_dataframe]
  | cons row rest ih =>
      obtain ⟨ih1, ih2, ih3⟩ := ih
      simp only [add_accounts_from_dataframe, add_account_empty_payload]
      refine ⟨ih1, by simp [ih2], ?_⟩
      intro r hr
      rcases List.mem_cons.mp hr with hr | hr
      · subst hr
        exact ⟨rfl, rfl, rfl⟩
      · exact ih3 r hr

/-- Normal form of the dispatch: for a recognised field-type string every
creator performs the same existence-check-then-submit protocol on
`cfg.field_name`; an unrecognised string yields the unknown-type result. -/
theorem dispatch_create_eq (org : Org) (ft : String) (cfg : FieldConfig) :
    dispatch_create org ft cfg =
      if is_known_type ft then
        (if check_field_exists org cfg.object_name cfg.field_name then
          (field_exists_result, org)
        else submit_field org cfg.field_name)
      else (⟨false, none, none, some "Unknown field type"⟩, org) := by
  simp only [dispatch_create, create_text_field, create_number_field,
    create_checkbox_field, create_date_field, create_picklist_field,
    create_currency_field, is_known_type]
  by_cases h1 : ft == "text" <;> by_cases h2 : ft == "number" <;>
    by_cases h3 : ft == "checkbox" <;> by_cases h4 : ft == "date" <;>
    by_cases h5 : ft == "picklist" <;> by_cases h6 : ft == "currency" <;>
    simp [h1, h2, h3, h4, h5, h6]

/-- Submitting a create either leaves the org unchanged or adds exactly the
submitted field name to the describable fields. -/
theorem submit_field_org_cases (org : Org) (f : String) :
    (submit_field org f).2 = org ∨
    (submit_field org f).2 = { org with existing := f :: org.existing } := by
  unfold submit_field
  cases org.createOutcome f <;> simp

/-- Submitting a create never produces the already-exists message. -/
theorem submit_field_not_exists_msg (org : Org) (f : String) :
    (submit_field org f).1.message ≠ some "Field already exists" := by
  unfold submit_field
  cases org.createOutcome f <;> simp

/-- When a submitted create reports success, the field is on the resulting
org. -/
theorem submit_field_success_mem (org : Org) (f : String)
    (h : (submit_field org f).1.success = true) :
    f ∈ (submit_field org f).2.existing := by
  unfold submit_field at h ⊢
  cases hco : org.createOutcome f <;> simp_all

/-- One dispatched creation either leaves the org unchanged or adds exactly
the entry's field name. -/
theorem dispatch_create_org_cases (org : Org) (ft : String) (cfg : FieldConfig) :
    (dispatch_create org ft cfg).2 = org ∨
    (dispatch_create org ft cfg).2 =
      { org with existing := cfg.field_name :: org.existing } := by
  rw [dispatch_create_eq]
  by_cases hk : is_known_type ft
  · by_cases hc : check_field_exists org cfg.object_name cfg.field_name
    · simp [hk, hc]
    · simp [hk, hc]
      exact submit_field_org_cases org cfg.field_name
  · simp [hk]

/-- One dispatched creation never changes whether describe fails. -/
theorem dispatch_describeFails (org : Org) (ft : String) (cfg : FieldConfig) :
    (dispatch_create org ft cfg).2.describeFails = org.describeFails := by
  rcases dispatch_create_org_cases org ft cfg with h | h <;> rw [h]

/-- One dispatched creation never removes an existing field. -/
theorem dispatch_existing_superset (org : Org) (ft : String) (cfg : FieldConfig)
    (n : String) (h : n ∈ org.existing) :
    n ∈ (dispatch_create org ft cfg).2.existing := by
  rcases dispatch_create_org_cases org ft cfg with h2 | h2 <;> rw [h2]
  · exact h
  · exact List.mem_cons_of_mem _ h

/-- When a dispatched creation reports success, the entry's field name is
on the resulting org. -/
theorem dispatch_success_mem (org : Org) (ft : String) (cfg : FieldConfig)
    (h : (dispatch_create org ft cfg).1.success = true) :
    cfg.field_name ∈ (dispatch_create org ft cfg).2.existing := by
  rw [dispatch_create_eq] at h ⊢
  by_cases hk : is_known_type ft
  · by_cases hc : check_field_exists org cfg.object_name cfg.field_name
    · rw [if_pos hk, if_pos hc] at h
      simp [field_exists_result] at h
    · rw [if_pos hk, if_neg hc] at h ⊢
      exact submit_field_success_mem org cfg.field_name h
  · rw [if_neg hk] at h
    simp at h

/-- When the entry's type is recognised and the field already exists, the
dispatched creation skips: it returns the already-exists result and leaves
the org unchanged. -/
theorem dispatch_skip (org : Org) (ft : String) (cfg : FieldConfig)
    (hk : is_known_type ft = true)
    (hc : check_field_exists org cfg.object_name cfg.field_name = true) :
    dispatch_create org ft cfg = (field_exists_result, org) := by
  rw [dispatch_create_eq, if_pos hk, if_pos hc]

/-- When the existence check does not hit, the dispatched creation never
produces the already-exists message. -/
theorem dispatch_not_exists_msg (org : Org) (ft : String) (cfg : FieldConfig)
    (h : check_field_exists org cfg.object_name cfg.field_name = false) :
    (dispatch_create org ft cfg).1.message ≠ some "Field already exists" := by
  rw [dispatch_create_eq]
  by_cases hk : is_known_type ft
  · rw [if_pos hk, h]
    simp only [Bool.false_eq_true, if_false]
    exact submit_field_not_exists_msg org cfg.field_name
  · rw [if_neg hk]
    simp

/-- Outcome tracking adds a name to `created` only from the accumulator or
from a successful result on that very name. -/
theorem track_created_mem (acc : RunResults) (f n : String) (r : PyResult)
    (h : n ∈ (track acc f r).created) :
    n ∈ acc.created ∨ (n = f ∧ r.success = true) := by
  unfold track at h
  by_cases hs : r.success
  · rw [if_pos hs] at h
    simp only [List.mem_append, List.mem_singleton] at h
    rcases h with h | h
    · exact Or.inl h
    · exact Or.inr ⟨h, hs⟩
  · rw [if_neg hs] at h
    by_cases hm : r.message == some "Field already exists" <;>
      simp [hm] at h <;> exact Or.inl h

/-- Tracking the already-exists result appends the field name to
`skipped`. -/
theorem track_field_exists (acc : RunResults) (f : String) :
    track acc f field_exists_result =
      { acc with skipped := acc.skipped ++ [f] } := rfl

/-- Tracking a result that does not carry the already-exists message leaves
`skipped` unchanged. -/
theorem track_skipped_of_ne (acc : RunResults) (f : String) (r : PyResult)
    (hm : r.message ≠ some "Field already exists") :
    (track acc f r).skipped = acc.skipped := by
  unfold track
  have hm2 : (r.message == some "Field already exists") = false := by
    simpa using hm
  by_cases hs : r.success <;> simp [hs, hm2]

/-- Outcome tracking adds exactly one occurrence, of exactly the tracked
field name, across the three outcome lists. -/
theorem track_count (acc : RunResults) (f n : String) (r : PyResult) :
    (track acc f r).created.count n + (track acc f r).skipped.count n +
      ((track acc f r).failed.map Prod.fst).count n =
    (acc.created.count n + acc.skipped.count n +
      (acc.failed.map Prod.fst).count n) + (if f == n then 1 else 0) := by
  unfold track
  by_cases hs : r.success <;>
    by_cases hm : r.message == some "Field already exists" <;>
    simp [hs, hm, List.count_append, List.count_singleton] <;>
    omega

/-- Across a provisioning loop, each processed entry contributes exactly
one occurrence of its field name to the three outcome lists combined. -/
theorem run_fields_count (fields : List (String × FieldConfig)) :
    ∀ (org : Org) (acc : RunResults) (n : String),
      (run_fields org fields acc).1.created.count n +
        (run_fields org fields acc).1.skipped.count n +
        ((run_fields org fields acc).1.failed.map Prod.fst).count n =
      (acc.created.count n + acc.skipped.count n +
        (acc.failed.map Prod.fst).count n) +
        (fields.map (fun e => e.2.field_name)).count n := by
  induction fields with
  | nil =>
      intro org acc n
      simp [run_fields]
  | cons e rest ih =>
      intro org acc n
      obtain ⟨ft, cfg⟩ := e
      simp only [run_fields]
      rw [ih, track_count]
      simp only [List.map_cons, List.count_cons]
      omega

/-- Field names of the healthcare field list are pairwise distinct. -/
theorem healthcare_field_names_nodup : healthcare_field_names.Nodup := by
  decide

/-- In a duplicate-free list every element occurs at most once. -/
theorem nodup_count_le_one {l : List String} (h : l.Nodup) (n : String) :
    l.count n ≤ 1 := by
  induction l with
  | nil => simp
  | cons a l ih =>
      rw [List.nodup_cons] at h
      rw [List.count_cons]
      by_cases hn : a == n
      · have : n ∉ l := by
          have ha : a = n := by simpa using hn
          rw [← ha]; exact h.1
        rw [List.count_eq_zero_of_not_mem this]
        simp [hn]
      · simp only [hn, if_false]
        simpa using ih h.2

/-- C5: in every provisioning run the three outcome lists of the summary
are pairwise disjoint and together contain exactly the input field names:
each of the 22 input fields is assigned to exactly one of
`created` / `skipped` / `failed`. -/
theorem provisioning_run_partitions_input (org : Org) :
    (create_healthcare_fields org).1.created.Disjoint
      (create_healthcare_fields org).1.skipped ∧
    (create_healthcare_fields org).1.created.Disjoint
      ((create_healthcare_fields org).1.failed.map Prod.fst) ∧
    (create_healthcare_fields org).1.skipped.Disjoint
      ((create_healthcare_fields org).1.failed.map Prod.fst) ∧
    ∀ n : String,
      (n ∈ (create_healthcare_fields org).1.created ∨
       n ∈ (create_healthcare_fields org).1.skipped ∨
       n ∈ (create_healthcare_fields org).1.failed.map Prod.fst) ↔
      n ∈ healthcare_field_names := by
  have hcount : ∀ n : String,
      (create_healthcare_fields org).1.created.count n +
        (create_healthcare_fields org).1.skipped.count n +
        ((create_healthcare_fields org).1.failed.map Prod.fst).count n =
      healthcare_field_names.count n := by
    intro n
    have h := run_fields_count fields_to_create org ⟨[], [], []⟩ n
    simpa [create_healthcare_fields, healthcare_field_names] using h
  have hle : ∀ n : String, healthcare_field_names.count n ≤ 1 :=
    nodup_count_le_one healthcare_field_names_nodup
  refine ⟨?_, ?_, ?_, ?_⟩
  · intro n h1 h2
    have c1 : 1 ≤ (create_healthcare_fields org).1.created.count n :=
      List.one_le_count_iff.mpr h1
    have c2 : 1 ≤ (create_healthcare_fields org).1.skipped.count n :=
      List.one_le_count_iff.mpr h2
    have := hcount n
    have := hle n
    omega
  · intro n h1 h2
    have c1 : 1 ≤ (create_healthcare_fields org).1.created.count n :=
      List.one_le_count_iff.mpr h1
    have c2 : 1 ≤ ((create_healthcare_fields org).1.failed.map Prod.fst).count n :=
      List.one_le_count_iff.mpr h2
    have := hcount n
    have := hle n
    omega
  · intro n h1 h2
    have c1 : 1 ≤ (create_healthcare_fields org).1.skipped.count n :=
      List.one_le_count_iff.mpr h1
    have c2 : 1 ≤ ((create_healthcare_fields org).1.failed.map Prod.fst).count n :=
      List.one_le_count_iff.mpr h2
    have := hcount n
    have := hle n
    omega
  · intro n
    rw [← List.count_pos_iff, ← List.count_pos_iff, ← List.count_pos_iff,
      ← List.count_pos_iff]
    have := hcount n
    omega

/-- A provisioning loop never changes whether describe fails. -/
theorem run_fields_describeFails (fields : List (String × FieldConfig)) :
    ∀ (org : Org) (acc : RunResults),
      (run_fields org fields acc).2.describeFails = org.describeFails := by
  induction fields with
  | nil =>
      intro org acc
      simp [run_fields]
  | cons e rest ih =>
      intro org acc
      obtain ⟨ft, cfg⟩ := e
      simp only [run_fields]
      rw [ih]
      exact dispatch_describeFails org ft cfg

/-- A provisioning loop never removes an existing field. -/
theorem run_fields_existing_superset (fields : List (String × FieldConfig)) :
    ∀ (org : Org) (acc : RunResults) (n : String), n ∈ org.existing →
      n ∈ (run_fields org fields acc).2.existing := by
  induction fields with
  | nil =>
      intro org acc n h
      simpa [run_fields] using h
  | cons e rest ih =>
      intro org acc n h
      obtain ⟨ft, cfg⟩ := e
      simp only [run_fields]
      exact ih _ _ n (dispatch_existing_superset org ft cfg n h)

/-- Every field name a provisioning loop reports as created exists on the
org the loop returns. -/
theorem run_fields_created_mem (fields : List (String × FieldConfig)) :
    ∀ (org : Org) (acc : RunResults) (n : String),
      n ∈ (run_fields org fields acc).1.created →
      n ∈ acc.created ∨ n ∈ (run_fields org fields acc).2.existing := by
  induction fields with
  | nil =>
      intro org acc n h
      simp only [run_fields] at h ⊢
      exact Or.inl h
  | cons e rest ih =>
      intro org acc n h
      obtain ⟨ft, cfg⟩ := e
      simp only [run_fields] at h ⊢
      rcases ih _ _ n h with h2 | h2
      · rcases track_created_mem acc cfg.field_name n _ h2 with h3 | ⟨h3, h4⟩
        · exact Or.inl h3
        · subst h3
          exact Or.inr (run_fields_existing_superset rest _ _ _
            (dispatch_success_mem org ft cfg h4))
      · exact Or.inr h2

/-- With a raising describe call no field is ever skipped: the loop's
summary has the same `skipped` list it started with. -/
theorem run_fields_describe_fail_no_skip (fields : List (String × FieldConfig)) :
    ∀ (org : Org) (acc : RunResults), org.describeFails = true →
      (run_fields org fields acc).1.skipped = acc.skipped := by
  induction fields with
  | nil =>
      intro org acc h
      simp [run_fields]
  | cons e rest ih =>
      intro org acc h
      obtain ⟨ft, cfg⟩ := e
      simp only [run_fields]
      have hdf : (dispatch_create org ft cfg).2.describeFails = true := by
        rw [dispatch_describeFails]; exact h
      rw [ih _ _ hdf]
      apply track_skipped_of_ne
      apply dispatch_not_exists_msg
      simp [check_field_exists, h]

/-- When describe works and every field of the list already exists on the
org, the loop skips every entry in order and leaves the org unchanged. -/
theorem run_fields_all_exist (fields : List (String × FieldConfig)) :
    ∀ (org : Org) (acc : RunResults),
      org.describeFails = false →
      (∀ e ∈ fields, is_known_type e.1 = true) →
      (∀ e ∈ fields, e.2.field_name ∈ org.existing) →
      run_fields org fields acc =
        ({ acc with
            skipped := acc.skipped ++ fields.map (fun e => e.2.field_name) },
          org) := by
  induction fields with
  | nil =>
      intro org acc h1 h2 h3
      simp [run_fields]
  | cons e rest ih =>
      intro org acc h1 h2 h3
      obtain ⟨ft, cfg⟩ := e
      have hk : is_known_type ft = true := h2 (ft, cfg) (List.mem_cons_self _ _)
      have hm : cfg.field_name ∈ org.existing := h3 (ft, cfg) (List.mem_cons_self _ _)
      have hc : check_field_exists org cfg.object_name cfg.field_name = true := by
        simp only [check_field_exists, h1, Bool.false_eq_true, if_false]
        exact List.elem_eq_true_of_mem hm
      simp only [run_fields]
      rw [dispatch_skip org ft cfg hk hc, track_field_exists,
        ih org _ h1 (fun x hx => h2 x (List.mem_cons_of_mem _ hx))
          (fun x hx => h3 x (List.mem_cons_of_mem _ hx))]
      simp [List.append_assoc]

/-- C6: when the describe call raises, `check_field_exists` returns false
for every object and field name, so the creator does not abort but proceeds
to attempt the create (its result is exactly that of submitting the
descriptor), and over a whole provisioning run nothing is ever classified
as skipped. -/
theorem describe_error_treated_as_absent (org : Org)
    (h : org.describeFails = true) :
    (∀ object_name field_name : String,
      check_field_exists org object_name field_name = false) ∧
    (∀ (object_name field_name label : String) (length : Nat)
        (required unique external_id : Bool) (description : Option String),
      create_text_field org object_name field_name label length required
          unique external_id description = submit_field org field_name) ∧
    (create_healthcare_fields org).1.skipped = [] := by
  refine ⟨?_, ?_, ?_⟩
  · intro o f
    simp [check_field_exists, h]
  · intro o f l len req u e d
    simp [create_text_field, check_field_exists, h]
  · exact run_fields_describe_fail_no_skip fields_to_create org ⟨[], [], []⟩ h

/-- Witness for C6: on the org whose describe raises even though `CCN__c`
exists, the existence check reports the field absent and
`create_text_field` goes on to submit the create. -/
theorem describe_error_treated_as_absent_witness :
    describe_error_org.describeFails = true ∧
    check_field_exists describe_error_org "Account" "CCN__c" = false ∧
    create_text_field describe_error_org "Account" "CCN__c"
        "CMS Certification Number" 50 false true true none
      = submit_field describe_error_org "CCN__c" ∧
    (create_healthcare_fields describe_error_org).1.skipped = [] :=
  ⟨rfl,
   (describe_error_treated_as_absent describe_error_org rfl).1 "Account" "CCN__c",
   (describe_error_treated_as_absent describe_error_org rfl).2.1 "Account"
     "CCN__c" "CMS Certification Number" 50 false true true none,
   (describe_error_treated_as_absent describe_error_org rfl).2.2⟩

/-- C7: provisioning is idempotent — if a run of
`create_healthcare_fields` reports every input field as created, then a
second run against the resulting org state (whose describe works and
reports every field) creates nothing, fails nothing, and skips the full
input list, leaving the org untouched. -/
theorem provisioning_idempotent (org : Org)
    (h1 : org.describeFails = false)
    (h2 : (create_healthcare_fields org).1.created = healthcare_field_names) :
    create_healthcare_fields (create_healthcare_fields org).2 =
      (⟨[], [], healthcare_field_names⟩, (create_healthcare_fields org).2) := by
  have hdf : (create_healthcare_fields org).2.describeFails = false := by
    simp only [create_healthcare_fields]
    rw [run_fields_describeFails]
    exact h1
  have hkn : ∀ e ∈ fields_to_create, is_known_type e.1 = true := by decide
  have hex : ∀ e ∈ fields_to_create,
      e.2.field_name ∈ (create_healthcare_fields org).2.existing := by
    intro e he
    have hmem : e.2.field_name ∈ (create_healthcare_fields org).1.created := by
      rw [h2]
      exact List.mem_map_of_mem _ he
    have hcm := run_fields_created_mem fields_to_create org ⟨[], [], []⟩
      e.2.field_name (by simpa [create_healthcare_fields] using hmem)
    simpa [create_healthcare_fields] using hcm
  have hrun := run_fields_all_exist fields_to_create
    (create_healthcare_fields org).2 ⟨[], [], []⟩ hdf hkn hex
  simpa [create_healthcare_fields, healthcare_field_names] using hrun

/-- Witness for C7: on the fresh all-success org the first run creates all
22 healthcare fields, and the second run skips all of them. -/
theorem provisioning_idempotent_witness :
    all_success_org.describeFails = false ∧
    (create_healthcare_fields all_success_org).1.created
      = healthcare_field_names ∧
    create_healthcare_fields (create_healthcare_fields all_success_org).2 =
      (⟨[], [], healthcare_field_names⟩,
        (create_healthcare_fields all_success_org).2) :=
  ⟨rfl, by decide, provisioning_idempotent all_success_org rfl (by decide)⟩
